import Mathlib

/-!
# github-release: branch resolution, release filing, release naming, input validation

A shallow embedding of `src/github-release.go`.

Modelling conventions

* Strings are Lean strings; `fmt.Sprintf` with `%s` verbs is string concatenation.
* The HTTP client is a function from the requests already sent and the request being
  sent to either an error (the request could not be built or transported) or a response.
  The answer may therefore depend on everything that was sent before.
* A response body is kept in the form in which the program observes it:
  `ioutil.ReadAll` followed by `json.Unmarshal` into a `referenceResponse`.
* `log.Fatalf` ends the process: it is the `fatal` outcome.  `log.Printf` and
  `log.Println` only write to the log and are left out.
* Every function that talks to the network returns its result together with the
  requests it sent, in order.  A request is recorded with its method, its URL and the
  value marshalled into its body; the headers set by `addAuthAndAcceptHeader` are not
  recorded.
* `strings.SplitN` and `strings.TrimRight` work on bytes in Go and on characters here;
  for the separator "/" and the cutset "\n", which are single bytes, the two agree.
-/

set_option linter.unusedVariables false

namespace GithubRelease

/-! ## Data model (lines 16-75) -/

structure release where
  TagName : String
  TargetBranch : String
  ReleaseName : String
  Body : String
  PreRelease : Bool
deriving DecidableEq, Repr

structure userInputs where
  tag : String
  releaseName : String
  previousTag : String
  preRelease : Bool
  projects : List String
  user : String
  source : String
  fallbackBranch : String
  timeout : Int
  supportBranchName : String
deriving DecidableEq, Repr

structure objectInReference where
  Sha : String
  TypeInfo : String
  URL : String
deriving DecidableEq, Repr

structure referenceResponse where
  Ref : String
  NodeID : String
  URL : String
  Object : objectInReference
deriving DecidableEq, Repr

structure createBranchBody where
  Ref : String
  Sha : String
deriving DecidableEq, Repr

def environmentTokenKey : String := "OAUTH_TOKEN"
def dockerNamesURL : String := "https://frightanic.com/goodies_content/docker-names.php"
def apiBaseURL : String := "https://api.github.com/repos"

/-- The format `githubURL` = "https://github.com/%s/%s/compare/%s...%s" applied to its
four string arguments. -/
def githubURL (a b c d : String) : String :=
  "https://github.com/" ++ a ++ "/" ++ b ++ "/compare/" ++ c ++ "..." ++ d

/-! ## HTTP -/

def StatusOK : Int := 200
def StatusCreated : Int := 201
def StatusNotFound : Int := 404

inductive Method
  | GET
  | POST
deriving DecidableEq, Repr

/-- The value that is marshalled into the body of a request. -/
inductive Payload
  | empty
  | branch (b : createBranchBody)
  | release (r : release)
deriving DecidableEq, Repr

structure Request where
  method : Method
  url : String
  body : Payload
deriving DecidableEq, Repr

/-- A response body as the program sees it through `ioutil.ReadAll` and then
`json.Unmarshal` into a `referenceResponse`. -/
inductive ResponseBody
  | unreadable (err : String)
  | malformed (err : String)
  | reference (r : referenceResponse)
deriving DecidableEq, Repr

structure Response where
  StatusCode : Int
  Body : ResponseBody
deriving DecidableEq, Repr

/-- The `*http.Client`: given the requests sent so far and the request to send, an
error or a response. -/
abbrev Client := List Request → Request → Except String Response

/-- The outcome of a function that may call `log.Fatalf`. -/
inductive Outcome (α : Type)
  | returned (a : α)
  | fatal (msg : String)
deriving DecidableEq, Repr

/-- An outcome together with the requests sent, in order. -/
structure Run (α : Type) where
  outcome : Outcome α
  calls : List Request
deriving DecidableEq, Repr

def getRequest (url : String) : Request := ⟨Method.GET, url, Payload.empty⟩

def postRequest (url : String) (body : Payload) : Request := ⟨Method.POST, url, body⟩

/-- The write calls among a list of requests. -/
def writeCalls (calls : List Request) : List Request :=
  calls.filter (fun q => q.method = Method.POST)

/-- Lines 248-251. -/
def statusSuccess (statusCode : Int) : Bool :=
  decide (statusCode ≥ StatusOK) && decide (statusCode ≤ 299)

/-- Lines 253-269: `doGet` sends a GET for `url` after the requests `hist`. -/
def doGet (client : Client) (hist : List Request) (url : String) : Except String Response :=
  client hist (getRequest url)

/-! ## Go library functions used by the program -/

/-- The first occurrence of the non-empty `sep` in `s`: the part before it and the part
after it. -/
def cut (sep : List Char) : List Char → Option (List Char × List Char)
  | [] => none
  | c :: cs =>
    if sep.isPrefixOf (c :: cs) then some ([], (c :: cs).drop sep.length)
    else (cut sep cs).map (fun p => (c :: p.1, p.2))

/-- The loop of `strings.genSplit`: at most `k` cuts, then the unsplit remainder. -/
def splitLoop (sep : List Char) : Nat → List Char → List (List Char)
  | 0, s => [s]
  | k + 1, s =>
    match cut sep s with
    | none => [s]
    | some (a, b) => a :: splitLoop sep k b

/-- The function `strings.explode`: up to `k + 1` pieces of one character each, the last
piece being the remainder. -/
def explode : Nat → List Char → List (List Char)
  | _, [] => []
  | 0, s => [s]
  | k + 1, c :: cs => if cs = [] then [[c]] else [c] :: explode k cs

/-- The function `strings.SplitN` for a count `n ≥ 0`. -/
def SplitN (s sep : String) (n : Nat) : List String :=
  match n with
  | 0 => []
  | k + 1 =>
    if sep.data = [] then (explode k s.data).map String.mk
    else (splitLoop sep.data k s.data).map String.mk

/-- The function `strings.TrimRight`: drop every trailing character that occurs in
`cutset`. -/
def TrimRight (s cutset : String) : String :=
  String.mk (s.data.rdropWhile (fun c => cutset.data.contains c))

/-! ## Branch resolution (lines 132-246) -/

/-- Lines 221-225: the branch name read off the ref of the created branch. -/
def branchNameOfRef (ref : String) : String :=
  let branchNameArray := SplitN ref "/" 3
  if h : branchNameArray.length = 3 then branchNameArray.get ⟨2, by omega⟩
  else ref

/-- Lines 132-246.  The result is the pair `(string, error)` the Go function returns, or
a fatal abort, with the requests sent. -/
def checkBranch (client : Client) (userInput : userInputs) (project : String)
    (projectAPIBaseURL : String) (hist : List Request) : Run (String × Option String) :=
  let url1 := projectAPIBaseURL ++ "/branches/" ++ userInput.source
  match doGet client hist url1 with
  | .error err => ⟨.fatal ("Received error " ++ err), [getRequest url1]⟩
  | .ok res =>
    if statusSuccess res.StatusCode then
      ⟨.returned (userInput.source, none), [getRequest url1]⟩
    else if res.StatusCode = StatusNotFound then
      let url2 := projectAPIBaseURL ++ "/releases/tags/" ++ userInput.source
      let sent2 := [getRequest url1, getRequest url2]
      match doGet client (hist ++ [getRequest url1]) url2 with
      | .error err => ⟨.fatal ("Could not Check release tags : " ++ err), sent2⟩
      | .ok res2 =>
        if statusSuccess res2.StatusCode then
          if userInput.supportBranchName = "" then
            ⟨.fatal "If Source is a tag, name of support branch to create from this is necessary!",
              sent2⟩
          else
            let url3 := projectAPIBaseURL ++ "/git/refs/tags/" ++ userInput.source
            let sent3 := sent2 ++ [getRequest url3]
            match doGet client (hist ++ sent2) url3 with
            | .error err =>
              ⟨.fatal ("Could not get Tag " ++ userInput.source ++ " commit userInput. : " ++ err),
                sent3⟩
            | .ok res3 =>
              if statusSuccess res3.StatusCode then
                match res3.Body with
                | .unreadable e =>
                  ⟨.fatal ("Could not read Response body, cannot proceed : " ++ e), sent3⟩
                | .malformed e =>
                  ⟨.fatal ("Could not read response for tag info to get sha commit " ++ e), sent3⟩
                | .reference tagReference =>
                  let createBranch : createBranchBody :=
                    { Ref := "refs/heads/" ++ userInput.supportBranchName
                      Sha := tagReference.Object.Sha }
                  let url4 := projectAPIBaseURL ++ "/git/refs"
                  let req := postRequest url4 (.branch createBranch)
                  let sent4 := sent3 ++ [req]
                  match client (hist ++ sent3) req with
                  | .error err => ⟨.fatal ("Error in creating the branch : " ++ err), sent4⟩
                  | .ok res4 =>
                    if res4.StatusCode = StatusCreated then
                      match res4.Body with
                      | .unreadable e =>
                        ⟨.fatal ("Could not read Response body, cannot proceed : " ++ e), sent4⟩
                      | .malformed e =>
                        ⟨.fatal ("Could not read response for tag info to get sha commit " ++ e),
                          sent4⟩
                      | .reference branchReference =>
                        ⟨.returned (branchNameOfRef branchReference.Ref, none), sent4⟩
                    else
                      ⟨.returned ("master", none), sent4⟩
              else
                ⟨.returned ("master", none), sent3⟩
        else
          let url3 := projectAPIBaseURL ++ "/branches/" ++ userInput.fallbackBranch
          let sent3 := sent2 ++ [getRequest url3]
          match doGet client (hist ++ sent2) url3 with
          | .error err => ⟨.fatal ("Received error " ++ err), sent3⟩
          | .ok res3 =>
            if statusSuccess res3.StatusCode then
              ⟨.returned (userInput.fallbackBranch, none), sent3⟩
            else
              ⟨.returned ("master", none), sent3⟩
    else
      ⟨.returned ("master", none), [getRequest url1]⟩

/-! ## Release filing (lines 276-316) -/

/-- Lines 348-350. -/
def isEmpty (input : String) : Bool :=
  input.utf8ByteSize == 0 || input == ""

/-- Lines 277-288: the release request that `createRelease` builds. -/
def releaseRequestOf (userInput : userInputs) (targetBranch : String) (project : String) :
    release :=
  let previousComparePoint :=
    if !isEmpty userInput.previousTag then userInput.previousTag else targetBranch
  let releaseCompareBody :=
    githubURL userInput.user project previousComparePoint userInput.tag
  { TagName := userInput.tag
    ReleaseName := userInput.releaseName
    PreRelease := userInput.preRelease
    TargetBranch := targetBranch
    Body := releaseCompareBody }

/-- Lines 276-316.  As everywhere in this file, an error of the client stands both for a
request that `http.NewRequest` could not build and for one that could not be
transported, and the request is listed in either case; the text of the fatal messages
is abridged (the status failure leaves out `http.StatusText`). -/
def createRelease (client : Client) (userInput : userInputs) (targetBranch : String)
    (project : String) (projectAPIBaseURL : String) (hist : List Request) : Run Unit :=
  let releaseRequest := releaseRequestOf userInput targetBranch project
  let q := postRequest (projectAPIBaseURL ++ "/releases") (.release releaseRequest)
  match client hist q with
  | .error err => ⟨.fatal ("Create release Failed, " ++ err), [q]⟩
  | .ok res =>
    if !statusSuccess res.StatusCode then
      ⟨.fatal ("Create release Failed with status, " ++ toString res.StatusCode), [q]⟩
    else
      ⟨.returned (), [q]⟩

/-! ## Release name (lines 318-346) -/

/-- The answer of the name generator to `client.Get`: the status and what
`ioutil.ReadAll` gives for the body. -/
structure NameResponse where
  StatusCode : Int
  Body : Except String String

/-- The name generator: a transport error or an answer. -/
abbrev NameService := Except String NameResponse

/-- Lines 331-346: the name and the request sent.  The status of the answer is not
looked at. -/
def getRandomReleaseName (service : NameService) : String × List Request :=
  let q := getRequest dockerNamesURL
  match service with
  | .error _ => ("", [q])
  | .ok resp =>
    match resp.Body with
    | .error _ => ("", [q])
    | .ok body => (TrimRight body "\n", [q])

/-- Lines 318-329: the name and the requests sent. -/
def getReleaseName (service : NameService) (userInput : userInputs) : String × List Request :=
  let releaseName := userInput.releaseName
  if isEmpty userInput.releaseName then
    let r := getRandomReleaseName service
    let releaseName := r.1
    if isEmpty releaseName then ("Release of " ++ userInput.tag, r.2)
    else (releaseName, r.2)
  else
    (releaseName, [])

/-! ## Input validation (lines 119-130 and 352-381) -/

/-- What a function that may call `os.Exit` printed, and the exit status if it exited. -/
structure Printed where
  output : List String
  exit : Option Nat
deriving DecidableEq, Repr

/-- Lines 119-130: the usage text, then `os.Exit(3)`.  The text that
`flag.PrintDefaults` prints is the parameter `defaults`. -/
def usage (executableName defaults : String) : Printed :=
  { output :=
      [ "\n" ++ executableName ++ " is an opinionated implementation of some Github APIs that can be used to create release tags for multiple projects\n",
        "\nUsage: " ++ executableName ++ " -user comdotlinux -source master -tag v0.0.2 -previous-tag v0.0.1 java-design-patterns TasteOfJavaEE7",
        "\nUsage: " ++ executableName ++ " -user comdotlinux -source support/v0.0.x -tag v0.0.3 -fallback-branch master -previous-tag v0.0.1 -release-name Duke -pre-release=false java-design-patterns TasteOfJavaEE7",
        "\nUsage: " ++ executableName ++ " -user comdotlinux -source v.0.0.1 -tag v0.0.2-RC.1 -support-branch-name support/v0.0.x -previous-tag v0.0.1 java-design-patterns TasteOfJavaEE7",
        "\nWhen -source is a TAG -support-branch-name is mandatory. \n",
        "An environment variable with the name " ++ environmentTokenKey ++ " is mandatory for all actions!\nSee https://developer.github.com/v3/#oauth2-token-sent-in-a-header to get one.\n\n",
        "Below are the possible parameters:\n",
        defaults ]
    exit := some 3 }

/-- Lines 354-370: the error messages collected by `inputValidaton`. -/
def validationErrors (userInput : userInputs) : List String :=
  let errors : List String := []
  let errors :=
    if isEmpty userInput.user then errors ++ ["User / Organization parameter is mandatory"]
    else errors
  let errors :=
    if isEmpty userInput.source then
      errors ++ ["source parameter is mandatory and must either be a branch OR a existing TAG on Github"]
    else errors
  let errors :=
    if isEmpty userInput.tag then
      errors ++ ["tag parameter is mandatory, otherwise what are we releasing?"]
    else errors
  let errors :=
    if userInput.projects.length = 0 then
      errors ++ ["Atleast provide one project, otherwise where do we create the tag?"]
    else errors
  errors

/-- The verb `%2d` for a natural number: decimal, padded with blanks on the left to
width two. -/
def fmtWidth2 (n : Nat) : String :=
  "".pushn ' ' (2 - (toString n).length) ++ toString n

/-- Lines 374-376: one line per error, `index+1` first. -/
def errorLines : Nat → List String → List String
  | _, [] => []
  | index, err :: rest => (fmtWidth2 (index + 1) ++ " : " ++ err ++ "\n") :: errorLines (index + 1) rest

/-- Lines 352-381. -/
def inputValidaton (executableName defaults : String) (userInput : userInputs) : Printed :=
  let errors := validationErrors userInput
  if errors.length ≠ 0 then
    let u := usage executableName defaults
    { output := ["\n"] ++ errorLines 0 errors ++ ["\n"] ++ u.output
      exit := u.exit }
  else
    { output := [], exit := none }

/-! ## The program (lines 77-117) -/

/-- What the process environment supplies to `main`: the token variable, the
name of the executable, the text of `flag.PrintDefaults`, the name generator and the
GitHub client. -/
structure Env where
  token : Option String
  executableName : String
  defaults : String
  service : NameService
  client : Client

/-- How a run of `main` ends: the exit status (0 when `main` returns, 1 after
`log.Fatalf`), the text printed on the flag output, and every network request sent. -/
structure Finished where
  status : Nat
  output : List String
  calls : List Request
deriving DecidableEq, Repr

/-- Lines 106-116: the loop over the projects. -/
def releaseProjects (client : Client) (userInput : userInputs) :
    List String → List Request → Run Unit
  | [], _ => ⟨.returned (), []⟩
  | project :: rest, hist =>
    let projectAPIBaseURL := apiBaseURL ++ "/" ++ userInput.user ++ "/" ++ project
    let r1 := checkBranch client userInput project projectAPIBaseURL hist
    match r1.outcome with
    | .fatal msg => ⟨.fatal msg, r1.calls⟩
    | .returned (targetBranch, some err) =>
      ⟨.fatal ("Could not get the Target Branch " ++ err), r1.calls⟩
    | .returned (targetBranch, none) =>
      let r2 := createRelease client userInput targetBranch project projectAPIBaseURL
        (hist ++ r1.calls)
      match r2.outcome with
      | .fatal msg => ⟨.fatal msg, r1.calls ++ r2.calls⟩
      | .returned _ =>
        let r3 := releaseProjects client userInput rest (hist ++ r1.calls ++ r2.calls)
        ⟨r3.outcome, r1.calls ++ r2.calls ++ r3.calls⟩

/-- Lines 77-117, with `userInput` the inputs as `flag.Parse` and `flag.Args` left
them. -/
def main (env : Env) (userInput : userInputs) : Finished :=
  match env.token with
  | none => ⟨1, [], []⟩
  | some token =>
    if token = "" then ⟨1, [], []⟩
    else
      let v := inputValidaton env.executableName env.defaults userInput
      match v.exit with
      | some code => ⟨code, v.output, []⟩
      | none =>
        let n := getReleaseName env.service userInput
        let userInput := { userInput with releaseName := n.1 }
        let r := releaseProjects env.client userInput userInput.projects []
        match r.outcome with
        | .fatal _ => ⟨1, v.output, n.2 ++ r.calls⟩
        | .returned _ => ⟨0, v.output, n.2 ++ r.calls⟩

/-! ## Concrete scenarios

The end-to-end example of the specification: owner `acme`, source `v1.0`, tag `v1.1`,
support branch `support/v1.x`, project `widget`; the fallback branch is `develop`. -/

def acmeInputs : userInputs :=
  { tag := "v1.1", releaseName := "", previousTag := "", preRelease := true,
    projects := ["widget"], user := "acme", source := "v1.0", fallbackBranch := "develop",
    timeout := 5, supportBranchName := "support/v1.x" }

def acmeBase : String := "https://api.github.com/repos/acme/widget"

/-- A response whose body is the JSON object without members. -/
def bare (status : Int) : Response :=
  ⟨status, .reference ⟨"", "", "", ⟨"", "", ""⟩⟩⟩

/-- A response whose body is a reference `ref` to the commit `sha`. -/
def refAnswer (status : Int) (ref sha : String) : Response :=
  ⟨status, .reference ⟨ref, "", "", ⟨sha, "commit", ""⟩⟩⟩

/-- A GitHub for the project `acme/widget` that gives fixed answers to the five calls
`checkBranch` can make for `acmeInputs`, whatever was sent before. -/
def scripted (branch tag tagRef create fallback : Except String Response) : Client :=
  fun _ q =>
    if q = getRequest (acmeBase ++ "/branches/v1.0") then branch
    else if q = getRequest (acmeBase ++ "/releases/tags/v1.0") then tag
    else if q = getRequest (acmeBase ++ "/git/refs/tags/v1.0") then tagRef
    else if q = getRequest (acmeBase ++ "/branches/develop") then fallback
    else if q.method = Method.POST ∧ q.url = acmeBase ++ "/git/refs" then create
    else .ok (bare 404)

/-- The source `v1.0` exists as a branch. -/
def branchClient : Client :=
  scripted (.ok (bare 200)) (.ok (bare 404)) (.ok (bare 404)) (.ok (bare 422)) (.ok (bare 200))

/-- The source `v1.0` exists only as a tag, at the commit `abc123`; a branch can be
created and the answer names the created ref. -/
def tagClient : Client :=
  scripted (.ok (bare 404)) (.ok (bare 200)) (.ok (refAnswer 200 "refs/tags/v1.0" "abc123"))
    (.ok (refAnswer 201 "refs/heads/support/v1.x" "abc123")) (.ok (bare 200))

/-- As `tagClient`, but the answer to the creation names another ref. -/
def otherRefClient : Client :=
  scripted (.ok (bare 404)) (.ok (bare 200)) (.ok (refAnswer 200 "refs/tags/v1.0" "abc123"))
    (.ok (refAnswer 201 "refs/heads/support/1.x" "abc123")) (.ok (bare 200))

/-- As `tagClient`, but the creation is refused with 422 (the branch exists already). -/
def refusedClient : Client :=
  scripted (.ok (bare 404)) (.ok (bare 200)) (.ok (refAnswer 200 "refs/tags/v1.0" "abc123"))
    (.ok (bare 422)) (.ok (bare 200))

/-- The source `v1.0` is neither a branch nor a tag; the branch `develop` exists. -/
def fallbackClient : Client :=
  scripted (.ok (bare 404)) (.ok (bare 404)) (.ok (bare 404)) (.ok (bare 422)) (.ok (bare 200))

/-- As `fallbackClient`, but the branch query for `v1.0` is answered 500. -/
def brokenClient : Client :=
  scripted (.ok (bare 500)) (.ok (bare 404)) (.ok (bare 404)) (.ok (bare 422)) (.ok (bare 200))

/-- Neither the source `v1.0` nor the branch `develop` exists. -/
def emptyClient : Client :=
  scripted (.ok (bare 404)) (.ok (bare 404)) (.ok (bare 404)) (.ok (bare 422)) (.ok (bare 404))


/-- The inputs `acmeInputs` without a support branch name. -/
def acmeInputsNoSupport : userInputs := { acmeInputs with supportBranchName := "" }

/-- A name generator that cannot be reached. -/
def downService : NameService := .error "dial tcp: i/o timeout"

/-! ## Auxiliary facts -/

theorem isEmpty_iff (s : String) : isEmpty s = true ↔ s = "" := by
  constructor
  · intro h
    unfold isEmpty at h
    simp only [Bool.or_eq_true, beq_iff_eq] at h
    rcases h with h | h
    · rcases s with ⟨l⟩
      cases l with
      | nil => rfl
      | cons c cs =>
        simp only [String.utf8ByteSize, String.utf8ByteSize.go] at h
        have := Char.utf8Size_pos c
        omega
    · exact h
  · intro h
    subst h
    rfl

theorem splitN_heads (n : String) :
    SplitN ("refs/heads/" ++ n) "/" 3 = ["refs", "heads", n] := by
  have hd : ("refs/heads/" ++ n).data
      = 'r' :: 'e' :: 'f' :: 's' :: '/' :: 'h' :: 'e' :: 'a' :: 'd' :: 's' :: '/' :: n.data := by
    simp [String.data_append]
  simp [SplitN, hd, splitLoop, cut, List.isPrefixOf]

theorem branchNameOfRef_heads (n : String) : branchNameOfRef ("refs/heads/" ++ n) = n := by
  simp [branchNameOfRef, splitN_heads]

theorem statusSuccess_iff (c : Int) : statusSuccess c = true ↔ 200 ≤ c ∧ c ≤ 299 := by
  simp [statusSuccess, StatusOK]

/-! ## Branch resolution -/

/-- C1: when the branch query for the source is answered with a status in [200,299],
checkBranch returns the source unchanged with a nil error, after exactly that one GET
and without any POST. -/
theorem checkBranch_source_branch (client : Client) (userInput : userInputs)
    (project base : String) (hist : List Request) (res : Response)
    (hget : doGet client hist (base ++ "/branches/" ++ userInput.source) = .ok res)
    (hstatus : 200 ≤ res.StatusCode ∧ res.StatusCode ≤ 299) :
    (checkBranch client userInput project base hist).outcome
        = .returned (userInput.source, none)
      ∧ (checkBranch client userInput project base hist).calls
        = [getRequest (base ++ "/branches/" ++ userInput.source)]
      ∧ writeCalls (checkBranch client userInput project base hist).calls = [] := by
  have hs : statusSuccess res.StatusCode = true := (statusSuccess_iff _).2 hstatus
  simp [checkBranch, hget, hs, writeCalls, getRequest]

theorem checkBranch_source_branch_witness :
    (doGet branchClient [] (acmeBase ++ "/branches/" ++ acmeInputs.source) = .ok (bare 200)
      ∧ (200 ≤ (bare 200).StatusCode ∧ (bare 200).StatusCode ≤ 299))
    ∧ ((checkBranch branchClient acmeInputs "widget" acmeBase []).outcome
        = .returned ("v1.0", none)
      ∧ (checkBranch branchClient acmeInputs "widget" acmeBase []).calls
        = [getRequest (acmeBase ++ "/branches/" ++ acmeInputs.source)]
      ∧ writeCalls (checkBranch branchClient acmeInputs "widget" acmeBase []).calls = []) :=
  ⟨⟨rfl, by decide⟩,
    checkBranch_source_branch branchClient acmeInputs "widget" acmeBase [] (bare 200)
      rfl (by decide)⟩


/-- C2 (amended): when the branch query for the source is answered 404, the
release-by-tag query is answered with a success status, supportBranchName is not empty,
and the tag-ref query is answered with a success status and a body that holds a
reference, then checkBranch sends exactly one POST, after the three GETs, with ref
"refs/heads/" followed by supportBranchName and the object sha of that reference,
whatever the answer to the POST is.  When the POST is answered 201 Created with a body
that holds a reference, the name returned is the one read off the ref in that answer; it
is supportBranchName when that ref is "refs/heads/" followed by supportBranchName. -/
theorem checkBranch_tag_creates_support_branch (client : Client) (userInput : userInputs)
    (project base : String) (hist : List Request) (res1 res2 res3 : Response)
    (tagReference : referenceResponse)
    (h1 : doGet client hist (base ++ "/branches/" ++ userInput.source) = .ok res1)
    (h1s : res1.StatusCode = 404)
    (h2 : doGet client (hist ++ [getRequest (base ++ "/branches/" ++ userInput.source)])
      (base ++ "/releases/tags/" ++ userInput.source) = .ok res2)
    (h2s : 200 ≤ res2.StatusCode ∧ res2.StatusCode ≤ 299)
    (hname : userInput.supportBranchName ≠ "")
    (h3 : doGet client
      (hist ++ [getRequest (base ++ "/branches/" ++ userInput.source),
        getRequest (base ++ "/releases/tags/" ++ userInput.source)])
      (base ++ "/git/refs/tags/" ++ userInput.source) = .ok res3)
    (h3s : 200 ≤ res3.StatusCode ∧ res3.StatusCode ≤ 299)
    (h3b : res3.Body = .reference tagReference) :
    writeCalls (checkBranch client userInput project base hist).calls
        = [postRequest (base ++ "/git/refs")
            (.branch ⟨"refs/heads/" ++ userInput.supportBranchName, tagReference.Object.Sha⟩)]
      ∧ (checkBranch client userInput project base hist).calls
        = [getRequest (base ++ "/branches/" ++ userInput.source),
            getRequest (base ++ "/releases/tags/" ++ userInput.source),
            getRequest (base ++ "/git/refs/tags/" ++ userInput.source),
            postRequest (base ++ "/git/refs")
              (.branch ⟨"refs/heads/" ++ userInput.supportBranchName,
                tagReference.Object.Sha⟩)]
      ∧ (∀ (res4 : Response) (branchReference : referenceResponse),
          client
            (hist ++ [getRequest (base ++ "/branches/" ++ userInput.source),
              getRequest (base ++ "/releases/tags/" ++ userInput.source),
              getRequest (base ++ "/git/refs/tags/" ++ userInput.source)])
            (postRequest (base ++ "/git/refs")
              (.branch ⟨"refs/heads/" ++ userInput.supportBranchName,
                tagReference.Object.Sha⟩))
            = .ok res4 →
          res4.StatusCode = 201 →
          res4.Body = .reference branchReference →
          (checkBranch client userInput project base hist).outcome
              = .returned (branchNameOfRef branchReference.Ref, none)
            ∧ (branchReference.Ref = "refs/heads/" ++ userInput.supportBranchName →
                (checkBranch client userInput project base hist).outcome
                  = .returned (userInput.supportBranchName, none))) := by
  have e1 : statusSuccess StatusNotFound = false := by decide
  have e1n : res1.StatusCode = StatusNotFound := h1s
  have e2 : statusSuccess res2.StatusCode = true := (statusSuccess_iff _).2 h2s
  have e3 : statusSuccess res3.StatusCode = true := (statusSuccess_iff _).2 h3s
  have hcalls : (checkBranch client userInput project base hist).calls
      = [getRequest (base ++ "/branches/" ++ userInput.source),
          getRequest (base ++ "/releases/tags/" ++ userInput.source),
          getRequest (base ++ "/git/refs/tags/" ++ userInput.source),
          postRequest (base ++ "/git/refs")
            (.branch ⟨"refs/heads/" ++ userInput.supportBranchName,
              tagReference.Object.Sha⟩)] := by
    unfold checkBranch
    simp only [h1, e1, e1n, h2, e2, hname, h3, e3, h3b, List.cons_append, List.nil_append,
      if_true, if_false, Bool.false_eq_true]
    split
    · rfl
    · split
      · split <;> rfl
      · rfl
  have hret : ∀ (res4 : Response) (branchReference : referenceResponse),
      client
        (hist ++ [getRequest (base ++ "/branches/" ++ userInput.source),
          getRequest (base ++ "/releases/tags/" ++ userInput.source),
          getRequest (base ++ "/git/refs/tags/" ++ userInput.source)])
        (postRequest (base ++ "/git/refs")
          (.branch ⟨"refs/heads/" ++ userInput.supportBranchName,
            tagReference.Object.Sha⟩))
        = .ok res4 →
      res4.StatusCode = 201 →
      res4.Body = .reference branchReference →
      (checkBranch client userInput project base hist).outcome
        = .returned (branchNameOfRef branchReference.Ref, none) := by
    intro res4 branchReference h4 h4s h4b
    have e4 : res4.StatusCode = StatusCreated := h4s
    unfold checkBranch
    simp only [h1, e1, e1n, h2, e2, hname, h3, e3, h3b, List.cons_append, List.nil_append,
      h4, e4, h4b, if_true, if_false, Bool.false_eq_true]
  refine ⟨?_, hcalls, ?_⟩
  · rw [hcalls]
    simp [writeCalls, getRequest, postRequest]
  · intro res4 branchReference h4 h4s h4b
    refine ⟨hret res4 branchReference h4 h4s h4b, ?_⟩
    intro h4r
    rw [hret res4 branchReference h4 h4s h4b, h4r, branchNameOfRef_heads]

theorem checkBranch_tag_creates_support_branch_witness :
    writeCalls (checkBranch tagClient acmeInputs "widget" acmeBase []).calls
        = [postRequest "https://api.github.com/repos/acme/widget/git/refs"
            (.branch ⟨"refs/heads/support/v1.x", "abc123"⟩)]
      ∧ (checkBranch tagClient acmeInputs "widget" acmeBase []).calls
        = [getRequest "https://api.github.com/repos/acme/widget/branches/v1.0",
            getRequest "https://api.github.com/repos/acme/widget/releases/tags/v1.0",
            getRequest "https://api.github.com/repos/acme/widget/git/refs/tags/v1.0",
            postRequest "https://api.github.com/repos/acme/widget/git/refs"
              (.branch ⟨"refs/heads/support/v1.x", "abc123"⟩)]
      ∧ (checkBranch tagClient acmeInputs "widget" acmeBase []).outcome
        = .returned ("support/v1.x", none) :=
  have h := checkBranch_tag_creates_support_branch tagClient acmeInputs "widget" acmeBase []
    (bare 404) (bare 200) (refAnswer 200 "refs/tags/v1.0" "abc123")
    ⟨"refs/tags/v1.0", "", "", ⟨"abc123", "commit", ""⟩⟩
    rfl rfl rfl (by decide) (by decide) rfl (by decide) rfl
  ⟨h.1, h.2.1,
    (h.2.2 (refAnswer 201 "refs/heads/support/v1.x" "abc123")
      ⟨"refs/heads/support/v1.x", "", "", ⟨"abc123", "commit", ""⟩⟩ rfl rfl rfl).2 rfl⟩

/-- C2 (as stated) fails.  With `otherRefClient` the branch query for the source v1.0 is
answered 404, the release-by-tag query 200, the tag-ref query 200 with the object sha
abc123, and supportBranchName is support/v1.x.  checkBranch sends the one POST for
refs/heads/support/v1.x with sha abc123; it is answered 201 Created with the ref
refs/heads/support/1.x, and checkBranch returns support/1.x, the name in the answer,
which is not supportBranchName. -/
theorem checkBranch_tag_counterexample :
    doGet otherRefClient [] (acmeBase ++ "/branches/" ++ acmeInputs.source) = .ok (bare 404)
      ∧ doGet otherRefClient [getRequest (acmeBase ++ "/branches/" ++ acmeInputs.source)]
          (acmeBase ++ "/releases/tags/" ++ acmeInputs.source) = .ok (bare 200)
      ∧ acmeInputs.supportBranchName ≠ ""
      ∧ doGet otherRefClient
          [getRequest (acmeBase ++ "/branches/" ++ acmeInputs.source),
            getRequest (acmeBase ++ "/releases/tags/" ++ acmeInputs.source)]
          (acmeBase ++ "/git/refs/tags/" ++ acmeInputs.source)
        = .ok (refAnswer 200 "refs/tags/v1.0" "abc123")
      ∧ otherRefClient
          [getRequest (acmeBase ++ "/branches/" ++ acmeInputs.source),
            getRequest (acmeBase ++ "/releases/tags/" ++ acmeInputs.source),
            getRequest (acmeBase ++ "/git/refs/tags/" ++ acmeInputs.source)]
          (postRequest (acmeBase ++ "/git/refs")
            (.branch ⟨"refs/heads/support/v1.x", "abc123"⟩))
        = .ok (refAnswer 201 "refs/heads/support/1.x" "abc123")
      ∧ writeCalls (checkBranch otherRefClient acmeInputs "widget" acmeBase []).calls
        = [postRequest (acmeBase ++ "/git/refs")
            (.branch ⟨"refs/heads/support/v1.x", "abc123"⟩)]
      ∧ (checkBranch otherRefClient acmeInputs "widget" acmeBase []).outcome
        = .returned ("support/1.x", none)
      ∧ (checkBranch otherRefClient acmeInputs "widget" acmeBase []).outcome
        ≠ .returned (acmeInputs.supportBranchName, none) :=
  ⟨rfl, rfl, by decide, rfl, rfl, by decide, by decide, by decide⟩

/-- C3 (the code at the failing input): the branch query for v1.0 is answered 404, the
release-by-tag query 200, the tag-ref query 200 with sha abc123, and the branch-create
POST is answered 422.  checkBranch sends that one POST and then returns "master" with a
nil error; it does not abort. -/
theorem checkBranch_refused_creation_returns_master :
    refusedClient
        [getRequest (acmeBase ++ "/branches/v1.0"),
          getRequest (acmeBase ++ "/releases/tags/v1.0"),
          getRequest (acmeBase ++ "/git/refs/tags/v1.0")]
        (postRequest (acmeBase ++ "/git/refs")
          (.branch ⟨"refs/heads/support/v1.x", "abc123"⟩)) = .ok (bare 422)
    ∧ checkBranch refusedClient acmeInputs "widget" acmeBase []
      = ⟨.returned ("master", none),
          [getRequest (acmeBase ++ "/branches/v1.0"),
            getRequest (acmeBase ++ "/releases/tags/v1.0"),
            getRequest (acmeBase ++ "/git/refs/tags/v1.0"),
            postRequest (acmeBase ++ "/git/refs")
              (.branch ⟨"refs/heads/support/v1.x", "abc123"⟩)]⟩ := by
  exact ⟨rfl, by decide⟩


/-- C4: when the branch query for the source is answered 404 and the release-by-tag query
is answered with a success status, so that the source is recognised as a tag, and
supportBranchName is empty, checkBranch aborts fatally: it returns no branch name, the
only requests sent are the two GETs for the branch and for the tag, and no POST is
sent. -/
theorem checkBranch_tag_without_support_name (client : Client) (userInput : userInputs)
    (project base : String) (hist : List Request) (res1 res2 : Response)
    (h1 : doGet client hist (base ++ "/branches/" ++ userInput.source) = .ok res1)
    (h1s : res1.StatusCode = 404)
    (h2 : doGet client (hist ++ [getRequest (base ++ "/branches/" ++ userInput.source)])
      (base ++ "/releases/tags/" ++ userInput.source) = .ok res2)
    (h2s : 200 ≤ res2.StatusCode ∧ res2.StatusCode ≤ 299)
    (hname : userInput.supportBranchName = "") :
    (∃ msg, (checkBranch client userInput project base hist).outcome = .fatal msg)
      ∧ (∀ name err,
          (checkBranch client userInput project base hist).outcome ≠ .returned (name, err))
      ∧ (checkBranch client userInput project base hist).calls
        = [getRequest (base ++ "/branches/" ++ userInput.source),
            getRequest (base ++ "/releases/tags/" ++ userInput.source)]
      ∧ writeCalls (checkBranch client userInput project base hist).calls = [] := by
  have e1 : statusSuccess StatusNotFound = false := by decide
  have e1n : res1.StatusCode = StatusNotFound := h1s
  have e2 : statusSuccess res2.StatusCode = true := (statusSuccess_iff _).2 h2s
  unfold checkBranch
  simp only [h1, e1, e1n, h2, e2, hname, if_true, if_false, Bool.false_eq_true]
  simp [writeCalls, getRequest]

theorem checkBranch_tag_without_support_name_witness :
    (∃ msg, (checkBranch tagClient acmeInputsNoSupport "widget" acmeBase []).outcome
        = .fatal msg)
      ∧ (∀ name err, (checkBranch tagClient acmeInputsNoSupport "widget" acmeBase []).outcome
          ≠ .returned (name, err))
      ∧ (checkBranch tagClient acmeInputsNoSupport "widget" acmeBase []).calls
        = [getRequest "https://api.github.com/repos/acme/widget/branches/v1.0",
            getRequest "https://api.github.com/repos/acme/widget/releases/tags/v1.0"]
      ∧ writeCalls (checkBranch tagClient acmeInputsNoSupport "widget" acmeBase []).calls
        = [] :=
  checkBranch_tag_without_support_name tagClient acmeInputsNoSupport "widget" acmeBase []
    (bare 404) (bare 200) rfl rfl rfl (by decide) rfl

/-- C5 (as stated) fails.  With `brokenClient` the branch query for the source v1.0 is
answered 500, a non-success status, the release-by-tag query for v1.0 would be answered
404 and the branch query for the fallback branch develop would be answered 200, whatever
was sent before; checkBranch returns "master" after the first GET, not develop. -/
theorem checkBranch_fallback_counterexample :
    doGet brokenClient [] (acmeBase ++ "/branches/" ++ acmeInputs.source) = .ok (bare 500)
      ∧ statusSuccess (bare 500).StatusCode = false
      ∧ (∀ hist, doGet brokenClient hist (acmeBase ++ "/releases/tags/" ++ acmeInputs.source)
          = .ok (bare 404))
      ∧ statusSuccess (bare 404).StatusCode = false
      ∧ (∀ hist, doGet brokenClient hist (acmeBase ++ "/branches/" ++ acmeInputs.fallbackBranch)
          = .ok (bare 200))
      ∧ statusSuccess (bare 200).StatusCode = true
      ∧ checkBranch brokenClient acmeInputs "widget" acmeBase []
        = ⟨.returned ("master", none), [getRequest (acmeBase ++ "/branches/v1.0")]⟩
      ∧ (checkBranch brokenClient acmeInputs "widget" acmeBase []).outcome
        ≠ .returned (acmeInputs.fallbackBranch, none) :=
  ⟨rfl, by decide, fun _ => rfl, by decide, fun _ => rfl, by decide, by decide, by decide⟩

/-- C5 (amended): when the branch query for the source is answered 404, the
release-by-tag query for the source is answered with a status outside [200,299] and the
branch query for fallbackBranch is answered with a status in [200,299], checkBranch
returns fallbackBranch with a nil error, after exactly these three GETs and without any
POST. -/
theorem checkBranch_fallback_branch (client : Client) (userInput : userInputs)
    (project base : String) (hist : List Request) (res1 res2 res3 : Response)
    (h1 : doGet client hist (base ++ "/branches/" ++ userInput.source) = .ok res1)
    (h1s : res1.StatusCode = 404)
    (h2 : doGet client (hist ++ [getRequest (base ++ "/branches/" ++ userInput.source)])
      (base ++ "/releases/tags/" ++ userInput.source) = .ok res2)
    (h2s : ¬ (200 ≤ res2.StatusCode ∧ res2.StatusCode ≤ 299))
    (h3 : doGet client
      (hist ++ [getRequest (base ++ "/branches/" ++ userInput.source),
        getRequest (base ++ "/releases/tags/" ++ userInput.source)])
      (base ++ "/branches/" ++ userInput.fallbackBranch) = .ok res3)
    (h3s : 200 ≤ res3.StatusCode ∧ res3.StatusCode ≤ 299) :
    (checkBranch client userInput project base hist).outcome
        = .returned (userInput.fallbackBranch, none)
      ∧ (checkBranch client userInput project base hist).calls
        = [getRequest (base ++ "/branches/" ++ userInput.source),
            getRequest (base ++ "/releases/tags/" ++ userInput.source),
            getRequest (base ++ "/branches/" ++ userInput.fallbackBranch)]
      ∧ writeCalls (checkBranch client userInput project base hist).calls = [] := by
  have e1 : statusSuccess StatusNotFound = false := by decide
  have e1n : res1.StatusCode = StatusNotFound := h1s
  have e2 : statusSuccess res2.StatusCode = false := by
    rw [← Bool.not_eq_true, statusSuccess_iff]; exact h2s
  have e3 : statusSuccess res3.StatusCode = true := (statusSuccess_iff _).2 h3s
  unfold checkBranch
  simp only [h1, e1, e1n, h2, e2, h3, e3, List.cons_append, List.nil_append, if_true,
    if_false, Bool.false_eq_true]
  simp [writeCalls, getRequest]

theorem checkBranch_fallback_branch_witness :
    (checkBranch fallbackClient acmeInputs "widget" acmeBase []).outcome
        = .returned ("develop", none)
      ∧ (checkBranch fallbackClient acmeInputs "widget" acmeBase []).calls
        = [getRequest "https://api.github.com/repos/acme/widget/branches/v1.0",
            getRequest "https://api.github.com/repos/acme/widget/releases/tags/v1.0",
            getRequest "https://api.github.com/repos/acme/widget/branches/develop"]
      ∧ writeCalls (checkBranch fallbackClient acmeInputs "widget" acmeBase []).calls = [] :=
  checkBranch_fallback_branch fallbackClient acmeInputs "widget" acmeBase []
    (bare 404) (bare 404) (bare 200) rfl rfl rfl (by decide) rfl (by decide)

/-- C6: when the branch query for the source, the release-by-tag query for the source and
the branch query for fallbackBranch are each answered with a status outside [200,299],
checkBranch returns the literal "master" with a nil error and sends no POST, whatever
source, fallbackBranch and supportBranchName are. -/
theorem checkBranch_master_default (client : Client) (userInput : userInputs)
    (project base : String) (hist : List Request) (res1 res2 res3 : Response)
    (h1 : doGet client hist (base ++ "/branches/" ++ userInput.source) = .ok res1)
    (h1s : ¬ (200 ≤ res1.StatusCode ∧ res1.StatusCode ≤ 299))
    (h2 : doGet client (hist ++ [getRequest (base ++ "/branches/" ++ userInput.source)])
      (base ++ "/releases/tags/" ++ userInput.source) = .ok res2)
    (h2s : ¬ (200 ≤ res2.StatusCode ∧ res2.StatusCode ≤ 299))
    (h3 : doGet client
      (hist ++ [getRequest (base ++ "/branches/" ++ userInput.source),
        getRequest (base ++ "/releases/tags/" ++ userInput.source)])
      (base ++ "/branches/" ++ userInput.fallbackBranch) = .ok res3)
    (h3s : ¬ (200 ≤ res3.StatusCode ∧ res3.StatusCode ≤ 299)) :
    (checkBranch client userInput project base hist).outcome = .returned ("master", none)
      ∧ writeCalls (checkBranch client userInput project base hist).calls = [] := by
  have e1 : statusSuccess res1.StatusCode = false := by
    rw [← Bool.not_eq_true, statusSuccess_iff]; exact h1s
  have e2 : statusSuccess res2.StatusCode = false := by
    rw [← Bool.not_eq_true, statusSuccess_iff]; exact h2s
  have e3 : statusSuccess res3.StatusCode = false := by
    rw [← Bool.not_eq_true, statusSuccess_iff]; exact h3s
  unfold checkBranch
  simp only [h1, e1, if_false, Bool.false_eq_true]
  by_cases hnf : res1.StatusCode = StatusNotFound
  · simp only [hnf, h2, e2, h3, e3, List.cons_append, List.nil_append, if_true, if_false,
      Bool.false_eq_true]
    simp [writeCalls, getRequest]
  · simp only [hnf, if_false]
    simp [writeCalls, getRequest]

theorem checkBranch_master_default_witness :
    (checkBranch emptyClient acmeInputs "widget" acmeBase []).outcome
        = .returned ("master", none)
      ∧ writeCalls (checkBranch emptyClient acmeInputs "widget" acmeBase []).calls = [] :=
  checkBranch_master_default emptyClient acmeInputs "widget" acmeBase []
    (bare 404) (bare 404) (bare 404) rfl (by decide) rfl (by decide) rfl (by decide)

/-- C10: for every branch name n, also one that contains "/", splitting the created ref
"refs/heads/" followed by n on "/" into at most three parts gives "refs", "heads" and n,
and the name checkBranch reads off that ref is exactly n. -/
theorem branchNameOfRef_created_ref (n : String) :
    SplitN ("refs/heads/" ++ n) "/" 3 = ["refs", "heads", n]
      ∧ branchNameOfRef ("refs/heads/" ++ n) = n :=
  ⟨splitN_heads n, branchNameOfRef_heads n⟩

/-! ## Release name -/

/-- C7: when no release name was supplied and the name generator fails (the request
fails, the body cannot be read, or the body is empty once trailing newlines are
trimmed), getReleaseName returns exactly "Release of " followed by the tag, after the one
GET to the generator.  It cannot abort: neither getReleaseName nor getRandomReleaseName
has a fatal path, and both are total. -/
theorem getReleaseName_generator_failure (service : NameService) (userInput : userInputs)
    (hname : userInput.releaseName = "")
    (hfail : (∃ err, service = .error err)
      ∨ (∃ resp err, service = .ok resp ∧ resp.Body = .error err)
      ∨ (∃ resp body, service = .ok resp ∧ resp.Body = .ok body ∧ TrimRight body "\n" = "")) :
    getReleaseName service userInput
      = ("Release of " ++ userInput.tag, [getRequest dockerNamesURL]) := by
  have he : isEmpty "" = true := rfl
  unfold getReleaseName
  rw [hname]
  simp only [he, if_true]
  rcases hfail with ⟨err, h⟩ | ⟨resp, err, h, hb⟩ | ⟨resp, body, h, hb, ht⟩
  · subst h
    simp [getRandomReleaseName, he]
  · subst h
    simp [getRandomReleaseName, hb, he]
  · subst h
    simp [getRandomReleaseName, hb, ht, he]

theorem getReleaseName_generator_failure_witness :
    getReleaseName downService acmeInputs
      = ("Release of v1.1",
          [getRequest "https://frightanic.com/goodies_content/docker-names.php"]) :=
  getReleaseName_generator_failure downService acmeInputs rfl (Or.inl ⟨_, rfl⟩)

/-! ## Release filing -/

/-- C8: the one request createRelease sends is a POST to the releases URL of the project
whose body is the release request with tag_name = tag, target_commitish = the resolved
branch, name = releaseName, prerelease = preRelease and body =
"https://github.com/OWNER/PROJECT/compare/P...TAG", where P is previousTag when
previousTag is not empty and the resolved branch otherwise. -/
theorem createRelease_request (client : Client) (userInput : userInputs)
    (targetBranch project base : String) (hist : List Request) :
    releaseRequestOf userInput targetBranch project
        = { TagName := userInput.tag
            TargetBranch := targetBranch
            ReleaseName := userInput.releaseName
            PreRelease := userInput.preRelease
            Body := "https://github.com/" ++ userInput.user ++ "/" ++ project ++ "/compare/"
              ++ (if userInput.previousTag = "" then targetBranch else userInput.previousTag)
              ++ "..." ++ userInput.tag }
      ∧ (createRelease client userInput targetBranch project base hist).calls
        = [postRequest (base ++ "/releases")
            (.release (releaseRequestOf userInput targetBranch project))] := by
  have he : isEmpty "" = true := rfl
  constructor
  · by_cases h : userInput.previousTag = ""
    · simp [releaseRequestOf, githubURL, he, h, String.append_assoc]
    · have hne : isEmpty userInput.previousTag = false := by
        rw [← Bool.not_eq_true, isEmpty_iff]; exact h
      simp [releaseRequestOf, githubURL, hne, h, String.append_assoc]
  · unfold createRelease
    dsimp only
    split
    · rfl
    · split <;> rfl


/-! ## Input validation -/

theorem validationErrors_eq (userInput : userInputs) :
    validationErrors userInput
      = (if userInput.user = "" then ["User / Organization parameter is mandatory"] else [])
        ++ (if userInput.source = "" then
              ["source parameter is mandatory and must either be a branch OR a existing TAG on Github"]
            else [])
        ++ (if userInput.tag = "" then
              ["tag parameter is mandatory, otherwise what are we releasing?"]
            else [])
        ++ (if userInput.projects = [] then
              ["Atleast provide one project, otherwise where do we create the tag?"]
            else []) := by
  have hb : ∀ s : String, (isEmpty s = true) = (s = "") := fun s => propext (isEmpty_iff s)
  have hl : (userInput.projects.length = 0) = (userInput.projects = []) :=
    propext List.length_eq_zero
  unfold validationErrors
  simp only [hb, hl]
  by_cases h1 : userInput.user = "" <;> by_cases h2 : userInput.source = ""
    <;> by_cases h3 : userInput.tag = "" <;> by_cases h4 : userInput.projects = []
    <;> simp [h1, h2, h3, h4]

theorem validationErrors_nil_iff (userInput : userInputs) :
    validationErrors userInput = []
      ↔ userInput.user ≠ "" ∧ userInput.source ≠ "" ∧ userInput.tag ≠ ""
        ∧ userInput.projects ≠ [] := by
  rw [validationErrors_eq]
  by_cases h1 : userInput.user = "" <;> by_cases h2 : userInput.source = ""
    <;> by_cases h3 : userInput.tag = "" <;> by_cases h4 : userInput.projects = []
    <;> simp [h1, h2, h3, h4]

theorem errorLines_getElem? (errors : List String) :
    ∀ (k i : Nat), (errorLines k errors)[i]?
      = errors[i]?.map (fun err => fmtWidth2 (k + i + 1) ++ " : " ++ err ++ "\n") := by
  induction errors with
  | nil => intro k i; simp [errorLines]
  | cons e rest ih =>
    intro k i
    cases i with
    | zero => simp [errorLines]
    | succ j =>
      simp only [errorLines, List.getElem?_cons_succ, ih]
      have : k + 1 + j + 1 = k + (j + 1) + 1 := by omega
      rw [this]

theorem inputValidaton_exit_none_iff (executableName defaults : String)
    (userInput : userInputs) :
    (inputValidaton executableName defaults userInput).exit = none
      ↔ validationErrors userInput = [] := by
  unfold inputValidaton
  by_cases h : validationErrors userInput = []
  · simp [h]
  · have hl : (validationErrors userInput).length ≠ 0 := by
      simpa [List.length_eq_zero] using h
    simp [h, hl, usage]

theorem main_calls_validated (env : Env) (userInput : userInputs)
    (h : (main env userInput).calls ≠ []) :
    (inputValidaton env.executableName env.defaults userInput).exit = none := by
  unfold main at h
  cases ht : env.token with
  | none => simp [ht] at h
  | some token =>
    simp only [ht] at h
    by_cases he : token = ""
    · simp [he] at h
    · simp only [he, if_false] at h
      cases hv : (inputValidaton env.executableName env.defaults userInput).exit with
      | none => rfl
      | some code => simp [hv] at h

/-- C9: inputValidaton collects one error message per missing input, in the order owner,
source, tag, projects; the lines it prints number them consecutively from 1; when an
input is missing it prints these lines and the usage text and exits with status 3; it
reports no error, and lets main go on, exactly when owner, source and tag are not empty
and at least one project is given; and a run of main sends a network request only if
owner, source and tag are not empty and there is at least one project. -/
theorem inputValidaton_contract (env : Env) (userInput : userInputs) :
    validationErrors userInput
        = (if userInput.user = "" then ["User / Organization parameter is mandatory"] else [])
          ++ (if userInput.source = "" then
                ["source parameter is mandatory and must either be a branch OR a existing TAG on Github"]
              else [])
          ++ (if userInput.tag = "" then
                ["tag parameter is mandatory, otherwise what are we releasing?"]
              else [])
          ++ (if userInput.projects = [] then
                ["Atleast provide one project, otherwise where do we create the tag?"]
              else [])
      ∧ (∀ i : Nat, (errorLines 0 (validationErrors userInput))[i]?
          = (validationErrors userInput)[i]?.map
              (fun err => fmtWidth2 (i + 1) ++ " : " ++ err ++ "\n"))
      ∧ (validationErrors userInput ≠ [] →
          inputValidaton env.executableName env.defaults userInput
            = ⟨["\n"] ++ errorLines 0 (validationErrors userInput) ++ ["\n"]
                ++ (usage env.executableName env.defaults).output, some 3⟩)
      ∧ (validationErrors userInput = [] →
          inputValidaton env.executableName env.defaults userInput = ⟨[], none⟩)
      ∧ (validationErrors userInput = []
          ↔ userInput.user ≠ "" ∧ userInput.source ≠ "" ∧ userInput.tag ≠ ""
            ∧ userInput.projects ≠ [])
      ∧ (∀ token : String, env.token = some token → token ≠ "" →
          validationErrors userInput ≠ [] →
          main env userInput
            = ⟨3, (inputValidaton env.executableName env.defaults userInput).output, []⟩)
      ∧ ((main env userInput).calls ≠ [] →
          userInput.user ≠ "" ∧ userInput.source ≠ "" ∧ userInput.tag ≠ ""
            ∧ userInput.projects ≠ []) := by
  refine ⟨validationErrors_eq userInput, ?_, ?_, ?_, validationErrors_nil_iff userInput, ?_, ?_⟩
  · intro i
    rw [errorLines_getElem?]
    simp
  · intro h
    have hl : (validationErrors userInput).length ≠ 0 := by
      simpa [List.length_eq_zero] using h
    simp [inputValidaton, hl, usage]
  · intro h
    simp [inputValidaton, h]
  · intro token ht hne h
    have hl : (validationErrors userInput).length ≠ 0 := by
      simpa [List.length_eq_zero] using h
    simp [main, ht, hne, inputValidaton, hl, usage]
  · intro h
    exact (validationErrors_nil_iff userInput).1
      ((inputValidaton_exit_none_iff _ _ _).1 (main_calls_validated env userInput h))

end GithubRelease
